import Mathlib

/-!
Verification of the session-tracking and error-recovery core of the
claude-code-ui server.

The embedding models:
* `SessionManager` (src/src/index.ts, second compilation unit): an in-memory
  `Map<string, SessionState>` with `registerSession`, `updateSessionActivity`,
  `markSessionError`, `cleanupInactiveSessions`, `getSessionStats`.
* `SessionStore` (src/src/sessionStore.ts): the metadata map with
  `getSessions` filtering/sorting, backup-file selection and
  `restoreFromBackup`.
* `ErrorRecoverySystem` (src/unnamed/part_004): `classifyError`,
  `determineRecoveryStrategy`, `calculateRetryDelay`, `executeRetry` and the
  `executeRecovery` dispatcher.

Modelling conventions:
* JavaScript `Map` is an insertion-ordered association list (`jsMapSet`
  overwrites in place, else appends; `jsMapGet` finds the first match).
* Timestamps (`Date.now()`) are naturals (epoch milliseconds) passed
  explicitly as a `now` argument.
* JavaScript truthiness is modelled explicitly: `x || d` on numbers falls
  back when `x` is `undefined` or `0` (`jsNumOr`); a string field is truthy
  when present and nonempty (`jsTruthyStr`).
* Strings that undergo character-level operations (error messages, backup
  filenames) are `List Char`; strings only compared for equality stay
  `String`.
* Filesystem reads and `JSON.parse` are modelled as `Option`-valued oracles;
  `none` models a thrown exception, and the `try`/`catch` wrapper is the
  branch mapping it to a `false` result.
-/

namespace CCUI

/-- JS `Map.prototype.set`: overwrite the value in place when the key is
already present, otherwise append the new entry. -/
def jsMapSet {β : Type} : List (String × β) → String → β → List (String × β)
  | [], k, v => [(k, v)]
  | (k', v') :: rest, k, v =>
    if k' = k then (k, v) :: rest else (k', v') :: jsMapSet rest k v

/-- JS `Map.prototype.get`: first entry with the key, if any. -/
def jsMapGet {β : Type} : List (String × β) → String → Option β
  | [], _ => none
  | (k', v') :: rest, k => if k' = k then some v' else jsMapGet rest k

/-- JS `Array.from(map.values())`. -/
def jsMapValues {β : Type} (m : List (String × β)) : List β :=
  m.map Prod.snd

/-- JS `x?.f || d` on a numeric field: `d` when the lookup failed or the
field is falsy (`0`). -/
def jsNumOr (x : Option Nat) (d : Nat) : Nat :=
  match x with
  | none => d
  | some n => if n = 0 then d else n

/-- JS truthiness of an optional string: present and nonempty. -/
def jsTruthyStr : Option String → Bool
  | none => false
  | some s => !(s == "")

theorem jsMapGet_jsMapSet_self {β : Type} (m : List (String × β)) (k : String) (v : β) :
    jsMapGet (jsMapSet m k v) k = some v := by
  induction m with
  | nil => simp [jsMapSet, jsMapGet]
  | cons hd tl ih =>
    obtain ⟨k', v'⟩ := hd
    by_cases h : k' = k
    · simp [jsMapSet, h, jsMapGet]
    · simp [jsMapSet, h, jsMapGet, ih]

theorem jsMapGet_jsMapSet {β : Type} (m : List (String × β)) (k k' : String) (v : β) :
    jsMapGet (jsMapSet m k v) k' = if k = k' then some v else jsMapGet m k' := by
  induction m with
  | nil => simp [jsMapSet, jsMapGet]
  | cons hd tl ih =>
    obtain ⟨k₀, v₀⟩ := hd
    by_cases h : k₀ = k
    · subst h
      by_cases h' : k₀ = k'
      · simp [jsMapSet, jsMapGet, h']
      · simp [jsMapSet, jsMapGet, h']
    · by_cases h' : k₀ = k'
      · subst h'
        rw [if_neg fun hk => h hk.symm]
        simp [jsMapSet, h, jsMapGet]
      · simp [jsMapSet, h, jsMapGet, h', ih]

theorem mem_jsMapSet {β : Type} {m : List (String × β)} {k : String} {v : β}
    {p : String × β} (hp : p ∈ jsMapSet m k v) : p = (k, v) ∨ p ∈ m := by
  induction m with
  | nil =>
    simp [jsMapSet] at hp
    exact Or.inl hp
  | cons hd tl ih =>
    obtain ⟨k', v'⟩ := hd
    by_cases h : k' = k
    · simp [jsMapSet, h] at hp
      rcases hp with h1 | h1
      · exact Or.inl h1
      · exact Or.inr (List.mem_cons_of_mem _ h1)
    · simp [jsMapSet, h] at hp
      rcases hp with h1 | h1
      · exact Or.inr (by simp [h1])
      · rcases ih h1 with h2 | h2
        · exact Or.inl h2
        · exact Or.inr (List.mem_cons_of_mem _ h2)

/-! ### SessionManager (src/src/index.ts) -/

/-- Model of `SessionState` from src/src/index.ts. Timestamps are epoch milliseconds. -/
structure SessionState where
  sessionId : String
  projectPath : String
  isActive : Bool
  lastActivity : Nat
  createdAt : Nat
  messageCount : Nat
  model : Option String
  workingDirectory : Option String
  lastError : Option String
  retryCount : Nat
deriving DecidableEq

/-- Model of `SessionManager.maxRetries` (also hard-coded as `3` in the store). -/
def maxRetries : Nat := 3

/-- Model of `SessionManager.sessionTimeout` = 30 minutes in milliseconds. -/
def sessionTimeout : Nat := 30 * 60 * 1000

/-- Model of `SessionManager.isRecentlyActive`. JS `now - ts < timeout` is negative
(hence true) when `ts > now`; truncated `Nat` subtraction gives `0 < timeout`,
also true, so the translation agrees. -/
def isRecentlyActive (timestamp now : Nat) : Bool :=
  decide (now - timestamp < sessionTimeout)

/-- The manager's state: the `sessionStates` map. -/
abbrev MgrState : Type := List (String × SessionState)

/-- Model of `SessionManager.registerSession`. `existingState?.createdAt || Date.now()`
and `existingState?.messageCount || 0` use JS `||`, hence `jsNumOr`. The new
record carries no `workingDirectory` and no `lastError`. -/
def registerSession (st : MgrState) (sessionId projectPath : String)
    (model : Option String) (now : Nat) : MgrState :=
  let existingState := jsMapGet st sessionId
  jsMapSet st sessionId
    { sessionId := sessionId
      projectPath := projectPath
      isActive := true
      lastActivity := now
      createdAt := jsNumOr (existingState.map SessionState.createdAt) now
      messageCount := jsNumOr (existingState.map SessionState.messageCount) 0
      model := model
      workingDirectory := none
      lastError := none
      retryCount := 0 }

/-- Model of `SessionManager.updateSessionActivity`. -/
def updateSessionActivity (st : MgrState) (sessionId : String) (now : Nat) : MgrState :=
  match jsMapGet st sessionId with
  | none => st
  | some s =>
    jsMapSet st sessionId
      { s with lastActivity := now, isActive := true, messageCount := s.messageCount + 1 }

/-- Model of `SessionManager.markSessionError`: increments `retryCount`, sets
`isActive := retryCount < maxRetries` with the incremented count. -/
def markSessionError (st : MgrState) (sessionId error : String) : MgrState :=
  match jsMapGet st sessionId with
  | none => st
  | some s =>
    jsMapSet st sessionId
      { s with lastError := some error
               retryCount := s.retryCount + 1
               isActive := decide (s.retryCount + 1 < maxRetries) }

/-- Model of `SessionManager.cleanupInactiveSessions`: deactivates every session whose
`lastActivity` is no longer recent. -/
def cleanupInactiveSessions (st : MgrState) (now : Nat) : MgrState :=
  st.map fun p =>
    if isRecentlyActive p.2.lastActivity now then p
    else (p.1, { p.2 with isActive := false })

/-- The sessions counted by `getSessionStats().withErrors`:
`sessions.filter(s => s.lastError)` — JS truthiness, so an empty-string
error would not count. -/
def withErrorSessions (st : MgrState) : List SessionState :=
  (jsMapValues st).filter fun s => jsTruthyStr s.lastError

/-- Model of `getSessionStats().withErrors`. -/
def statsWithErrors (st : MgrState) : Nat :=
  (withErrorSessions st).length

/-- One tracker operation, as enumerated by the claim. -/
inductive MgrOp : Type
  | register (sessionId projectPath : String) (model : Option String) (now : Nat)
  | activity (sessionId : String) (now : Nat)
  | markErr (sessionId error : String)
  | cleanup (now : Nat)
deriving DecidableEq

/-- Interpretation of a tracker operation. -/
def applyOp (st : MgrState) : MgrOp → MgrState
  | .register sessionId projectPath model now => registerSession st sessionId projectPath model now
  | .activity sessionId now => updateSessionActivity st sessionId now
  | .markErr sessionId error => markSessionError st sessionId error
  | .cleanup now => cleanupInactiveSessions st now

/-- A sequence of tracker operations, applied left to right. -/
def applyOps (st : MgrState) (ops : List MgrOp) : MgrState :=
  ops.foldl applyOp st

/-- The claimed invariant: exhausted retries force inactivity. -/
def RetryInv (st : MgrState) : Prop :=
  ∀ p ∈ st, maxRetries ≤ p.2.retryCount → p.2.isActive = false

instance (st : MgrState) : Decidable (RetryInv st) := by
  unfold RetryInv
  infer_instance

/-- Does the operation update activity? (the one operation that can
re-activate an exhausted session). -/
def MgrOp.isActivityOp : MgrOp → Bool
  | .activity _ _ => true
  | _ => false

theorem registerSession_retryInv {st : MgrState} (hst : RetryInv st)
    (sessionId projectPath : String) (model : Option String) (now : Nat) :
    RetryInv (registerSession st sessionId projectPath model now) := by
  intro p hp hcount
  rcases mem_jsMapSet hp with h | h
  · subst h
    exact absurd hcount (by simp [maxRetries])
  · exact hst p h hcount

theorem markSessionError_retryInv {st : MgrState} (hst : RetryInv st)
    (sessionId error : String) :
    RetryInv (markSessionError st sessionId error) := by
  unfold markSessionError
  cases hget : jsMapGet st sessionId with
  | none => exact hst
  | some s =>
    intro p hp hcount
    rcases mem_jsMapSet hp with h | h
    · subst h
      simp only at hcount ⊢
      exact decide_eq_false (Nat.not_lt.mpr hcount)
    · exact hst p h hcount

theorem cleanupInactiveSessions_retryInv {st : MgrState} (hst : RetryInv st)
    (now : Nat) : RetryInv (cleanupInactiveSessions st now) := by
  intro p hp hcount
  unfold cleanupInactiveSessions at hp
  rcases List.mem_map.mp hp with ⟨q, hq, hfq⟩
  by_cases hrec : isRecentlyActive q.2.lastActivity now = true
  · simp only [hrec, if_pos] at hfq
    subst hfq
    exact hst q hq hcount
  · simp only [hrec, if_neg, Bool.false_eq_true, not_false_iff] at hfq
    subst hfq
    rfl

theorem applyOp_retryInv {st : MgrState} {op : MgrOp} (hst : RetryInv st)
    (hop : op.isActivityOp = false) : RetryInv (applyOp st op) := by
  cases op with
  | register sessionId projectPath model now =>
    exact registerSession_retryInv hst sessionId projectPath model now
  | activity sessionId now => exact absurd hop (by simp [MgrOp.isActivityOp])
  | markErr sessionId error => exact markSessionError_retryInv hst sessionId error
  | cleanup now => exact cleanupInactiveSessions_retryInv hst now

/-- C1, as stated, is false: after `registerSession`, three
`markSessionError` calls (retryCount = 3, isActive = false) and one
`updateSessionActivity`, the session has `retryCount = 3` yet
`isActive = true` — `updateSessionActivity` re-activates unconditionally. -/
theorem c1_retryInv_counterexample :
    ¬ RetryInv (applyOps []
      [MgrOp.register "s" "p" none 0, MgrOp.markErr "s" "e", MgrOp.markErr "s" "e",
       MgrOp.markErr "s" "e", MgrOp.activity "s" 1]) := by
  decide

/-- C1 (amended): for every sequence of tracker operations that contains no
`updateSessionActivity`, starting from a state satisfying the invariant,
every session with `retryCount ≥ maxRetries` (= 3) has `isActive = false`. -/
theorem c1_retryInv_without_activity (st : MgrState) (ops : List MgrOp)
    (hst : RetryInv st) (hops : ∀ op ∈ ops, op.isActivityOp = false) :
    RetryInv (applyOps st ops) := by
  induction ops generalizing st with
  | nil => exact hst
  | cons op rest ih =>
    have h1 : RetryInv (applyOp st op) :=
      applyOp_retryInv hst (hops op (List.mem_cons_self op rest))
    exact ih (applyOp st op) h1 fun o ho => hops o (List.mem_cons_of_mem op ho)

/-- Witness for C1 (amended) at a concrete operation sequence. -/
theorem c1_retryInv_without_activity_witness :
    RetryInv (applyOps []
      [MgrOp.register "s" "p" none 0, MgrOp.markErr "s" "e", MgrOp.markErr "s" "e",
       MgrOp.markErr "s" "e", MgrOp.cleanup 1]) :=
  c1_retryInv_without_activity []
    [MgrOp.register "s" "p" none 0, MgrOp.markErr "s" "e", MgrOp.markErr "s" "e",
     MgrOp.markErr "s" "e", MgrOp.cleanup 1]
    (by decide) (by decide)

/-- C2, as stated, is false: a tracked session whose `createdAt` is `0`
(registered when `Date.now() = 0`) does not keep its `createdAt` on
re-registration, because `existingState?.createdAt || Date.now()` treats the
stored `0` as falsy and substitutes the current time (5 here). -/
theorem c2_register_counterexample :
    (jsMapGet (registerSession (registerSession [] "s" "p" none 0) "s" "p" none 5) "s").map
        SessionState.createdAt ≠
      (jsMapGet (registerSession [] "s" "p" none 0) "s").map SessionState.createdAt := by
  decide

/-- C2 (amended): re-registering a tracked session whose stored `createdAt`
is nonzero yields exactly the state with the original `createdAt` and
`messageCount`, `retryCount = 0` and `isActive = true` (and the new
`projectPath`, `model`, `lastActivity`, no `lastError`). -/
theorem c2_register_idempotent (st : MgrState) (sessionId projectPath : String)
    (model : Option String) (now : Nat) (s : SessionState)
    (h : jsMapGet st sessionId = some s) (hc : s.createdAt ≠ 0) :
    jsMapGet (registerSession st sessionId projectPath model now) sessionId =
      some { sessionId := sessionId, projectPath := projectPath, isActive := true,
             lastActivity := now, createdAt := s.createdAt,
             messageCount := s.messageCount, model := model,
             workingDirectory := none, lastError := none, retryCount := 0 } := by
  have h1 : jsNumOr (some s.createdAt) now = s.createdAt := by
    unfold jsNumOr
    simp [hc]
  have h2 : jsNumOr (some s.messageCount) 0 = s.messageCount := by
    unfold jsNumOr
    by_cases hm : s.messageCount = 0 <;> simp [hm]
  unfold registerSession
  rw [h]
  simp only [Option.map_some', h1, h2]
  exact jsMapGet_jsMapSet_self st sessionId _

/-- Witness for C2 (amended): register at time 7, re-register at time 9. -/
theorem c2_register_idempotent_witness :
    jsMapGet (registerSession (registerSession [] "s" "p" none 7) "s" "q" (some "m") 9) "s" =
      some { sessionId := "s", projectPath := "q", isActive := true,
             lastActivity := 9, createdAt := 7, messageCount := 0,
             model := some "m", workingDirectory := none, lastError := none,
             retryCount := 0 } :=
  c2_register_idempotent (registerSession [] "s" "p" none 7) "s" "q" (some "m") 9
    { sessionId := "s", projectPath := "p", isActive := true, lastActivity := 7,
      createdAt := 7, messageCount := 0, model := none, workingDirectory := none,
      lastError := none, retryCount := 0 }
    (by decide) (by decide)

/-- C10: re-registering a session always yields a state with
`lastError = undefined`; the re-registered session therefore no longer
belongs to the sessions counted by `getSessionStats().withErrors`. -/
theorem c10_register_clears_lastError (st : MgrState) (sessionId projectPath : String)
    (model : Option String) (now : Nat) (s' : SessionState)
    (h : jsMapGet (registerSession st sessionId projectPath model now) sessionId = some s') :
    s'.lastError = none ∧
      s' ∉ withErrorSessions (registerSession st sessionId projectPath model now) := by
  rw [registerSession, jsMapGet_jsMapSet_self] at h
  have hv := (Option.some.inj h).symm
  constructor
  · rw [hv]
  · intro hmem
    have htruthy := (List.mem_filter.mp hmem).2
    rw [hv] at htruthy
    simp [jsTruthyStr] at htruthy

/-- Witness for C10: a session marked with error "boom" loses the error on
re-registration. -/
theorem c10_register_clears_lastError_witness :
    SessionState.lastError
        { sessionId := "s", projectPath := "p", isActive := true, lastActivity := 5,
          createdAt := 2, messageCount := 0, model := none, workingDirectory := none,
          lastError := none, retryCount := 0 } = none ∧
      { sessionId := "s", projectPath := "p", isActive := true, lastActivity := 5,
        createdAt := 2, messageCount := 0, model := none, workingDirectory := none,
        lastError := none, retryCount := (0 : Nat) } ∉
        withErrorSessions (registerSession
          (markSessionError (registerSession [] "s" "p" none 2) "s" "boom") "s" "p" none 5) :=
  c10_register_clears_lastError
    (markSessionError (registerSession [] "s" "p" none 2) "s" "boom") "s" "p" none 5
    _ (by decide)

/-! ### SessionStore (src/src/sessionStore.ts) -/

/-- Model of `SessionMetadata` from src/src/sessionStore.ts. The optional passthrough
fields `tags` and `customData` are never read or written by any operation a
claim mentions and are omitted. -/
structure SessionMetadata where
  sessionId : String
  projectPath : String
  model : Option String
  createdAt : Nat
  lastActivity : Nat
  messageCount : Nat
  isActive : Bool
  retryCount : Nat
  lastError : Option String
deriving DecidableEq

/-- The store's state: the `sessionMetadata` map. -/
abbrev StoreState : Type := List (String × SessionMetadata)

/-- The optional filter argument of `SessionStore.getSessions`. -/
structure SessionFilter where
  isActive : Option Bool
  projectPath : Option String
  since : Option Nat
deriving DecidableEq

/-- Descending order on `lastActivity`: the comparator
`(a, b) => b.lastActivity - a.lastActivity`. -/
def byActivityDesc (a b : SessionMetadata) : Prop :=
  b.lastActivity ≤ a.lastActivity

instance : DecidableRel byActivityDesc := fun a b =>
  inferInstanceAs (Decidable (b.lastActivity ≤ a.lastActivity))

instance : IsTotal SessionMetadata byActivityDesc := by
  constructor
  intro a b
  unfold byActivityDesc
  exact Nat.le_total b.lastActivity a.lastActivity

instance : IsTrans SessionMetadata byActivityDesc := by
  constructor
  intro a b c hab hbc
  unfold byActivityDesc at *
  exact Nat.le_trans hbc hab

/-- Model of `SessionStore.getSessions`. The `isActive` condition is applied whenever
the field is not `undefined`; the `projectPath` and `since` conditions are
guarded by JS truthiness (`if (filter.projectPath)`, `if (filter.since)`), so
an empty path or a zero cutoff is skipped. The final sort uses the stable
comparator `b.lastActivity - a.lastActivity`; V8's sort is stable, so it is
modelled by stable insertion sort on `byActivityDesc`. -/
def getSessions (st : StoreState) (filter : Option SessionFilter) :
    List SessionMetadata :=
  let sessions := jsMapValues st
  let sessions :=
    match filter with
    | none => sessions
    | some f =>
      let s1 := match f.isActive with
        | some b => sessions.filter fun s => s.isActive == b
        | none => sessions
      let s2 := match f.projectPath with
        | some p => if p = "" then s1 else s1.filter fun s => s.projectPath == p
        | none => s1
      match f.since with
      | some n => if n = 0 then s2 else s2.filter fun s => decide (n < s.lastActivity)
      | none => s2
  List.insertionSort byActivityDesc sessions

/-- The claim's reading of a filter: the conjunction of all supplied
conditions (`isActive` equality, `projectPath` equality, `lastActivity`
strictly after `since`). -/
def matchesFilter (f : SessionFilter) (s : SessionMetadata) : Bool :=
  (match f.isActive with | some b => s.isActive == b | none => true) &&
  ((match f.projectPath with | some p => s.projectPath == p | none => true) &&
    (match f.since with | some n => decide (n < s.lastActivity) | none => true))

/-- C6, as stated, is false: with a stored session whose `lastActivity` is
`0` and the filter `{since: 0}`, the session fails the supplied condition
`lastActivity > 0`, yet `getSessions` returns it — `if (filter.since)` treats
the cutoff `0` as absent. -/
theorem c6_getSessions_counterexample :
    getSessions
        [("s", { sessionId := "s", projectPath := "p", model := none, createdAt := 0,
                 lastActivity := 0, messageCount := 0, isActive := true, retryCount := 0,
                 lastError := none })]
        (some { isActive := none, projectPath := none, since := some 0 }) =
      [{ sessionId := "s", projectPath := "p", model := none, createdAt := 0,
         lastActivity := 0, messageCount := 0, isActive := true, retryCount := 0,
         lastError := none }] ∧
    matchesFilter { isActive := none, projectPath := none, since := some 0 }
        { sessionId := "s", projectPath := "p", model := none, createdAt := 0,
          lastActivity := 0, messageCount := 0, isActive := true, retryCount := 0,
          lastError := none } = false := by
  constructor
  · rfl
  · rfl

theorem getSessions_filter_eq (st : StoreState) (f : SessionFilter)
    (hp : f.projectPath ≠ some "") (hs : f.since ≠ some 0) :
    getSessions st (some f) =
      List.insertionSort byActivityDesc
        ((jsMapValues st).filter (matchesFilter f)) := by
  obtain ⟨fA, fP, fS⟩ := f
  unfold getSessions matchesFilter
  cases fA with
  | none =>
    cases fP with
    | none =>
      cases fS with
      | none => simp
      | some n =>
        have hn : n ≠ 0 := fun h => hs (congrArg some h)
        simp only [if_neg hn, Bool.true_and]
    | some p =>
      have hpne : p ≠ "" := fun h => hp (congrArg some h)
      cases fS with
      | none => simp only [if_neg hpne, Bool.true_and, Bool.and_true]
      | some n =>
        have hn : n ≠ 0 := fun h => hs (congrArg some h)
        simp only [if_neg hpne, if_neg hn, Bool.true_and, List.filter_filter]
        congr 1
        apply List.filter_congr
        intro s _
        cases s.projectPath == p <;> cases decide (n < s.lastActivity) <;> rfl
  | some b =>
    cases fP with
    | none =>
      cases fS with
      | none => simp only [Bool.and_true]
      | some n =>
        have hn : n ≠ 0 := fun h => hs (congrArg some h)
        simp only [if_neg hn, Bool.true_and, Bool.and_true, List.filter_filter]
        congr 1
        apply List.filter_congr
        intro s _
        cases s.isActive == b <;> cases decide (n < s.lastActivity) <;> rfl
    | some p =>
      have hpne : p ≠ "" := fun h => hp (congrArg some h)
      cases fS with
      | none =>
        simp only [if_neg hpne, Bool.and_true, List.filter_filter]
        congr 1
        apply List.filter_congr
        intro s _
        cases s.isActive == b <;> cases s.projectPath == p <;> rfl
      | some n =>
        have hn : n ≠ 0 := fun h => hs (congrArg some h)
        simp only [if_neg hpne, if_neg hn, List.filter_filter]
        congr 1
        apply List.filter_congr
        intro s _
        cases s.isActive == b <;> cases s.projectPath == p <;>
          cases decide (n < s.lastActivity) <;> rfl

/-- C6 (amended): for every filter whose supplied `projectPath` is nonempty
and whose supplied `since` is nonzero, `getSessions` returns exactly the
stored sessions satisfying the conjunction of the supplied conditions
(AND semantics), sorted by `lastActivity` in descending order. (A supplied
`projectPath = ""` or `since = 0` is ignored by the code as falsy.) -/
theorem c6_getSessions_filter_sorted (st : StoreState) (f : SessionFilter)
    (hp : f.projectPath ≠ some "") (hs : f.since ≠ some 0) :
    (getSessions st (some f)).Perm ((jsMapValues st).filter (matchesFilter f)) ∧
      (getSessions st (some f)).Sorted byActivityDesc := by
  rw [getSessions_filter_eq st f hp hs]
  exact ⟨List.perm_insertionSort byActivityDesc _,
    List.sorted_insertionSort byActivityDesc _⟩

/-- Witness for C6 (amended): two sessions, one active and one inactive,
filtered by `{isActive: true}` and by activity cutoff 1. -/
theorem c6_getSessions_filter_sorted_witness :
    (getSessions
        [("a", { sessionId := "a", projectPath := "p", model := none, createdAt := 0,
                 lastActivity := 3, messageCount := 0, isActive := true, retryCount := 0,
                 lastError := none }),
         ("b", { sessionId := "b", projectPath := "p", model := none, createdAt := 0,
                 lastActivity := 9, messageCount := 0, isActive := false, retryCount := 0,
                 lastError := none })]
        (some { isActive := some true, projectPath := none, since := some 1 })).Perm
      ((jsMapValues
          [("a", { sessionId := "a", projectPath := "p", model := none, createdAt := 0,
                   lastActivity := 3, messageCount := 0, isActive := true, retryCount := 0,
                   lastError := none }),
           ("b", { sessionId := "b", projectPath := "p", model := none, createdAt := 0,
                   lastActivity := 9, messageCount := 0, isActive := false, retryCount := 0,
                   lastError := none })]).filter
        (matchesFilter { isActive := some true, projectPath := none, since := some 1 })) ∧
      (getSessions
        [("a", { sessionId := "a", projectPath := "p", model := none, createdAt := 0,
                 lastActivity := 3, messageCount := 0, isActive := true, retryCount := 0,
                 lastError := none }),
         ("b", { sessionId := "b", projectPath := "p", model := none, createdAt := 0,
                 lastActivity := 9, messageCount := 0, isActive := false, retryCount := 0,
                 lastError := none })]
        (some { isActive := some true, projectPath := none, since := some 1 })).Sorted
        byActivityDesc :=
  c6_getSessions_filter_sorted _ _ (by decide) (by decide)

/-- The restore loop of `SessionStore.restoreFromBackup`:
`for (const session of backupData.sessions) this.sessionMetadata.set(session.sessionId, session)`. -/
def restoreSessions (st : StoreState) (sessions : List SessionMetadata) : StoreState :=
  sessions.foldl (fun m s => jsMapSet m s.sessionId s) st

/-- C7: restoration is a merge, never a replace. After the restore loop, a
lookup returns the last backup record with that `sessionId` when one exists
(upsert, overwriting on conflict), and otherwise exactly what the live map
held before — sessions absent from the backup are untouched. -/
theorem c7_restore_merge (st : StoreState) (sessions : List SessionMetadata) (id : String) :
    jsMapGet (restoreSessions st sessions) id =
      (sessions.reverse.find? fun s => s.sessionId == id).or (jsMapGet st id) := by
  induction sessions generalizing st with
  | nil => simp [restoreSessions]
  | cons s rest ih =>
    show jsMapGet (restoreSessions (jsMapSet st s.sessionId s) rest) id = _
    rw [ih, List.reverse_cons, List.find?_append, Option.or_assoc]
    congr 1
    rw [jsMapGet_jsMapSet]
    by_cases h : s.sessionId = id
    · simp [h]
    · have hb : (s.sessionId == id) = false := by simp [h]
      simp [h, hb]

/-! ### Backup file selection (src/src/sessionStore.ts) -/

/-- JS string comparison (`<`/`sort()` default order) on code units:
lexicographic, with a proper prefix ordered before its extensions. -/
def lexLe : List Char → List Char → Bool
  | [], _ => true
  | _ :: _, [] => false
  | a :: as, b :: bs => if a < b then true else if b < a then false else lexLe as bs

/-- Propositional form of `lexLe`, for sorting. -/
def lexLeProp (a b : List Char) : Prop := lexLe a b = true

instance : DecidableRel lexLeProp := fun a b =>
  inferInstanceAs (Decidable (lexLe a b = true))

theorem lexLe_refl (a : List Char) : lexLe a a = true := by
  induction a with
  | nil => rfl
  | cons x xs ih => simp [lexLe, lt_irrefl, ih]

theorem lexLe_total (a b : List Char) : lexLe a b = true ∨ lexLe b a = true := by
  induction a generalizing b with
  | nil => exact Or.inl rfl
  | cons x xs ih =>
    cases b with
    | nil => exact Or.inr rfl
    | cons y ys =>
      rcases lt_trichotomy x y with h | h | h
      · exact Or.inl (by simp [lexLe, h])
      · subst h
        rcases ih ys with h2 | h2
        · exact Or.inl (by simp [lexLe, lt_irrefl, h2])
        · exact Or.inr (by simp [lexLe, lt_irrefl, h2])
      · exact Or.inr (by simp [lexLe, h])

theorem lexLe_trans {a b c : List Char} (hab : lexLe a b = true)
    (hbc : lexLe b c = true) : lexLe a c = true := by
  induction a generalizing b c with
  | nil => rfl
  | cons x xs ih =>
    cases b with
    | nil => exact absurd hab (by simp [lexLe])
    | cons y ys =>
      cases c with
      | nil => exact absurd hbc (by simp [lexLe])
      | cons z zs =>
        rcases lt_trichotomy x y with hxy | hxy | hxy
        · rcases lt_trichotomy y z with hyz | hyz | hyz
          · simp [lexLe, lt_trans hxy hyz]
          · subst hyz
            simp [lexLe, hxy]
          · exact absurd hbc (by simp [lexLe, asymm hyz, hyz])
        · subst hxy
          rcases lt_trichotomy x z with hyz | hyz | hyz
          · simp [lexLe, hyz]
          · subst hyz
            have hab' : lexLe xs ys = true := by
              simpa [lexLe, lt_irrefl] using hab
            have hbc' : lexLe ys zs = true := by
              simpa [lexLe, lt_irrefl] using hbc
            simpa [lexLe, lt_irrefl] using ih hab' hbc'
          · exact absurd hbc (by simp [lexLe, asymm hyz, hyz])
        · exact absurd hab (by simp [lexLe, asymm hxy, hxy])

instance : IsTotal (List Char) lexLeProp := by
  constructor
  intro a b
  exact lexLe_total a b

instance : IsTrans (List Char) lexLeProp := by
  constructor
  intro a b c h1 h2
  exact lexLe_trans h1 h2

/-- Model of `f.startsWith('backup-') && f.endsWith('.json')`. -/
def isBackupFile (f : List Char) : Bool :=
  List.isPrefixOf "backup-".toList f && List.isSuffixOf ".json".toList f

/-- The filename written by `performBackup`:
`` `backup-${timestamp}.json` `` with the timestamp in plain decimal. -/
def backupFileName (timestamp : Nat) : List Char :=
  "backup-".toList ++ Nat.toDigits 10 timestamp ++ ".json".toList

/-- Model of `restoreFromBackup`'s selection when no file is given:
`readdirSync(...).filter(backup-*.json).sort().reverse()[0]`. -/
def pickBackup (files : List (List Char)) : Option (List Char) :=
  (List.insertionSort lexLeProp (files.filter isBackupFile)).reverse.head?

theorem sorted_getLast?_max {α : Type} {r : α → α → Prop} {f : α} :
    ∀ {l : List α}, l.Sorted r → l.getLast? = some f → ∀ g ∈ l, g = f ∨ r g f := by
  intro l
  induction l with
  | nil => intro _ hlast; simp at hlast
  | cons a l ih =>
    intro hs hlast g hg
    cases l with
    | nil =>
      have hf : a = f := by simpa using hlast
      have hga : g = a := by simpa using hg
      exact Or.inl (hga.trans hf)
    | cons b l' =>
      have hlast' : (b :: l').getLast? = some f := by
        simpa [List.getLast?_cons_cons] using hlast
      rcases List.mem_cons.mp hg with hga | hg'
      · subst hga
        have hf : f ∈ b :: l' := List.mem_of_getLast?_eq_some hlast'
        exact Or.inr (List.rel_of_sorted_cons hs f hf)
      · exact ih hs.of_cons hlast' g hg'

/-- C8, as stated, is false: backup filenames embed the timestamp in plain
decimal, not zero-padded, so with backups at times 1000 and 999 on disk the
lexicographically-last filename is `backup-999.json` — the chronologically
older one — and that is what gets restored. -/
theorem c8_pick_counterexample :
    pickBackup [backupFileName 1000, backupFileName 999] = some (backupFileName 999) ∧
      isBackupFile (backupFileName 1000) = true ∧ 999 < 1000 := by
  constructor
  · rfl
  · exact ⟨rfl, by decide⟩

/-- C8 (amended): with no argument, `restoreFromBackup` selects the
`backup-*.json` filename that is lexicographically last among the matching
files; because timestamps are not zero-padded, this coincides with the
chronologically most recent backup only when the timestamps have equal digit
counts. -/
theorem c8_pick_lexicographically_last (files : List (List Char)) (f : List Char)
    (h : pickBackup files = some f) :
    f ∈ files.filter isBackupFile ∧
      ∀ g ∈ files.filter isBackupFile, lexLe g f = true := by
  unfold pickBackup at h
  rw [← List.getLast?_eq_head?_reverse] at h
  have hperm : (List.insertionSort lexLeProp (files.filter isBackupFile)).Perm
      (files.filter isBackupFile) := List.perm_insertionSort _ _
  have hmem : f ∈ List.insertionSort lexLeProp (files.filter isBackupFile) :=
    List.mem_of_getLast?_eq_some h
  refine ⟨hperm.mem_iff.mp hmem, fun g hg => ?_⟩
  have hgl : g ∈ List.insertionSort lexLeProp (files.filter isBackupFile) :=
    hperm.mem_iff.mpr hg
  have hsorted : (List.insertionSort lexLeProp (files.filter isBackupFile)).Sorted
      lexLeProp := List.sorted_insertionSort _ _
  rcases sorted_getLast?_max hsorted h g hgl with heq | hrel
  · rw [heq]
    exact lexLe_refl f
  · exact hrel

/-- Witness for C8 (amended): among backups at times 1 and 2 the selected
file is `backup-2.json`, the file for time 1 also matches the pattern, and it
lexicographically precedes the selected one. -/
theorem c8_pick_lexicographically_last_witness :
    backupFileName 2 ∈ [backupFileName 1, backupFileName 2].filter isBackupFile ∧
      lexLe (backupFileName 1) (backupFileName 2) = true :=
  ⟨(c8_pick_lexicographically_last [backupFileName 1, backupFileName 2]
      (backupFileName 2) (by decide)).1,
   (c8_pick_lexicographically_last [backupFileName 1, backupFileName 2]
      (backupFileName 2) (by decide)).2 (backupFileName 1) (by decide)⟩

/-! ### restoreFromBackup failure handling (src/src/sessionStore.ts) -/

/-- The parsed shape of a backup file:
`{timestamp, sessionCount, sessions: SessionMetadata[]}`. -/
structure BackupData where
  timestamp : Nat
  sessionCount : Nat
  sessions : List SessionMetadata

/-- The filesystem and parser as oracles. `none` models a thrown exception
(`readdirSync` on a missing directory, `readFileSync` on an unreadable or
missing file, `JSON.parse` on malformed input); the `try`/`catch` in
`restoreFromBackup` is the branch mapping each `none` to a `false` result. -/
structure StoreFS where
  readDir : Option (List (List Char))
  readFile : List Char → Option (List Char)
  parse : List Char → Option BackupData

/-- The store's backups directory (`<storePath>/backups`), abstract. -/
def backupDirPath : List Char := "/store/backups".toList

/-- POSIX `path.isAbsolute`. -/
def isAbsolutePath (f : List Char) : Bool :=
  match f with
  | '/' :: _ => true
  | _ => false

/-- Model of `path.join(this.backupDir, f)`. -/
def joinBackupDir (f : List Char) : List Char :=
  backupDirPath ++ '/' :: f

/-- Model of `path.isAbsolute(backupFile) ? backupFile : path.join(this.backupDir, backupFile)`. -/
def resolveBackupPath (f : List Char) : List Char :=
  if isAbsolutePath f then f else joinBackupDir f

/-- The tail of `restoreFromBackup` once a backup path is fixed: read the
file, parse it, merge the sessions; any exception is caught and yields
`(false, st)`. -/
def restoreFromPath (fs : StoreFS) (path : List Char) (st : StoreState) :
    Bool × StoreState :=
  match fs.readFile path with
  | none => (false, st)
  | some content =>
    match fs.parse content with
    | none => (false, st)
    | some data => (true, restoreSessions st data.sessions)

/-- Model of `SessionStore.restoreFromBackup`. With no argument it lists the backups
directory, filters `backup-*.json`, sorts, reverses, and takes the first
entry; an empty candidate list returns `false` without throwing; every
thrown exception is caught and also returns `false`. -/
def restoreFromBackup (fs : StoreFS) (backupFile : Option (List Char))
    (st : StoreState) : Bool × StoreState :=
  match backupFile with
  | some f => restoreFromPath fs (resolveBackupPath f) st
  | none =>
    match fs.readDir with
    | none => (false, st)
    | some files =>
      match pickBackup files with
      | none => (false, st)
      | some f => restoreFromPath fs (joinBackupDir f) st

theorem pickBackup_eq_none {files : List (List Char)} :
    pickBackup files = none ↔ files.filter isBackupFile = [] := by
  unfold pickBackup
  rw [List.head?_eq_none_iff, List.reverse_eq_nil_iff]
  constructor
  · intro h
    have hperm := List.perm_insertionSort lexLeProp (files.filter isBackupFile)
    rw [h] at hperm
    exact (hperm.symm).eq_nil
  · intro h
    rw [h]
    rfl

/-- C9: each failure mode of `restoreFromBackup` — missing backups directory,
no matching backup files, unreadable or missing file (both for a given file
and for the auto-selected one), unparseable JSON — returns `false` (leaving
the map untouched) instead of propagating the exception. -/
theorem c9_restore_failures :
    (∀ (fs : StoreFS) (st : StoreState), fs.readDir = none →
        restoreFromBackup fs none st = (false, st)) ∧
    (∀ (fs : StoreFS) (st : StoreState) (files : List (List Char)),
        fs.readDir = some files → files.filter isBackupFile = [] →
        restoreFromBackup fs none st = (false, st)) ∧
    (∀ (fs : StoreFS) (st : StoreState) (f : List Char),
        fs.readFile (resolveBackupPath f) = none →
        restoreFromBackup fs (some f) st = (false, st)) ∧
    (∀ (fs : StoreFS) (st : StoreState) (f content : List Char),
        fs.readFile (resolveBackupPath f) = some content →
        fs.parse content = none →
        restoreFromBackup fs (some f) st = (false, st)) ∧
    (∀ (fs : StoreFS) (st : StoreState) (files : List (List Char)) (f : List Char),
        fs.readDir = some files → pickBackup files = some f →
        fs.readFile (joinBackupDir f) = none →
        restoreFromBackup fs none st = (false, st)) := by
  refine ⟨?_, ?_, ?_, ?_, ?_⟩
  · intro fs st h
    unfold restoreFromBackup
    rw [h]
  · intro fs st files h hempty
    unfold restoreFromBackup
    rw [h]
    dsimp only
    rw [pickBackup_eq_none.mpr hempty]
  · intro fs st f h
    unfold restoreFromBackup restoreFromPath
    dsimp only
    rw [h]
  · intro fs st f content hread hparse
    unfold restoreFromBackup restoreFromPath
    dsimp only
    rw [hread]
    dsimp only
    rw [hparse]
  · intro fs st files f h hpick hread
    unfold restoreFromBackup restoreFromPath
    rw [h]
    dsimp only
    rw [hpick]
    dsimp only
    rw [hread]

/-- Witness for C9: each failure mode exercised on a concrete oracle. -/
theorem c9_restore_failures_witness :
    restoreFromBackup
        { readDir := none, readFile := fun _ => none, parse := fun _ => none }
        none [] = (false, []) ∧
      restoreFromBackup
        { readDir := some [], readFile := fun _ => none, parse := fun _ => none }
        none [] = (false, []) ∧
      restoreFromBackup
        { readDir := none, readFile := fun _ => none, parse := fun _ => none }
        (some "b.json".toList) [] = (false, []) ∧
      restoreFromBackup
        { readDir := none, readFile := fun _ => some [], parse := fun _ => none }
        (some "b.json".toList) [] = (false, []) ∧
      restoreFromBackup
        { readDir := some [backupFileName 1], readFile := fun _ => none,
          parse := fun _ => none }
        none [] = (false, []) :=
  ⟨c9_restore_failures.1 _ [] rfl,
   c9_restore_failures.2.1 _ [] [] rfl rfl,
   c9_restore_failures.2.2.1 _ [] "b.json".toList rfl,
   c9_restore_failures.2.2.2.1 _ [] "b.json".toList [] rfl rfl,
   c9_restore_failures.2.2.2.2 _ [] [backupFileName 1] (backupFileName 1) rfl
     (by decide) rfl⟩

/-! ### ErrorRecoverySystem (src/unnamed/part_004) -/

/-- Model of `message.toLowerCase()`. -/
def lowerChars (m : List Char) : List Char := m.map Char.toLower

/-- JS `String.prototype.includes`: the needle occurs contiguously in the
haystack (the empty needle always occurs). -/
def containsSub : List Char → List Char → Bool
  | [], needle => needle.isEmpty
  | c :: rest, needle => List.isPrefixOf needle (c :: rest) || containsSub rest needle

/-- Model of `m.includes(s)` with a literal pattern. -/
def includesStr (m : List Char) (s : String) : Bool :=
  containsSub m s.toList

/-- Model of `ErrorClassification.type`. -/
inductive ErrorType : Type
  | network
  | session
  | system
  | user
  | unknown
deriving DecidableEq

/-- Model of `ErrorClassification.severity`. -/
inductive ErrorSeverity : Type
  | low
  | medium
  | high
  | critical
deriving DecidableEq

/-- Model of `ErrorClassification` from src/unnamed/part_004. -/
structure ErrorClassification where
  type : ErrorType
  severity : ErrorSeverity
  recoverable : Bool
  retryable : Bool
  permanent : Bool
deriving DecidableEq

/-- Model of `ErrorRecoverySystem.classifyError` on `error.message` (the optional
`context` argument is never used by the classification). -/
def classifyError (message : List Char) : ErrorClassification :=
  let m := lowerChars message
  if includesStr m "fetch" || includesStr m "network" || includesStr m "connection" ||
      includesStr m "timeout" || includesStr m "http 50" || includesStr m "http 40" then
    { type := .network
      severity := if includesStr m "timeout" then .medium else .high
      recoverable := true
      retryable := true
      permanent := false }
  else if includesStr m "session" || includesStr m "resume" ||
      includesStr m "continuation" || includesStr m "not found" ||
      includesStr m "invalid session" then
    { type := .session
      severity := .medium
      recoverable := true
      retryable := false
      permanent := false }
  else if includesStr m "claude cli" || includesStr m "command" ||
      includesStr m "spawn" || includesStr m "permission" ||
      includesStr m "file system" then
    { type := .system
      severity := .high
      recoverable := true
      retryable := true
      permanent := false }
  else if includesStr m "validation" || includesStr m "required" ||
      includesStr m "invalid" || includesStr m "malformed" then
    { type := .user
      severity := .low
      recoverable := false
      retryable := false
      permanent := true }
  else
    { type := .unknown
      severity := .medium
      recoverable := true
      retryable := true
      permanent := false }

/-- The network-rule trigger of `classifyError`, on the lowered message. -/
def isNetworkMsg (m : List Char) : Bool :=
  includesStr m "fetch" || includesStr m "network" || includesStr m "connection" ||
    includesStr m "timeout" || includesStr m "http 50" || includesStr m "http 40"

/-- The session-rule trigger of `classifyError`, on the lowered message. -/
def isSessionMsg (m : List Char) : Bool :=
  includesStr m "session" || includesStr m "resume" || includesStr m "continuation" ||
    includesStr m "not found" || includesStr m "invalid session"

/-- The system-rule trigger of `classifyError`, on the lowered message. -/
def isSystemMsg (m : List Char) : Bool :=
  includesStr m "claude cli" || includesStr m "command" || includesStr m "spawn" ||
    includesStr m "permission" || includesStr m "file system"

/-- The user-rule trigger of `classifyError`, on the lowered message. -/
def isUserMsg (m : List Char) : Bool :=
  includesStr m "validation" || includesStr m "required" || includesStr m "invalid" ||
    includesStr m "malformed"

/-- C3: `'session timeout'` matches both the session rule and the network
rule, and is classified `network` with severity `medium` because the network
check runs first; in general the first matching rule in the order network,
session, system, user, unknown determines the classified type. -/
theorem c3_classify_first_match :
    (classifyError "session timeout".toList).type = ErrorType.network ∧
    (classifyError "session timeout".toList).severity = ErrorSeverity.medium ∧
    isSessionMsg (lowerChars "session timeout".toList) = true ∧
    isNetworkMsg (lowerChars "session timeout".toList) = true ∧
    ∀ message : List Char,
      (classifyError message).type =
        (if isNetworkMsg (lowerChars message) then ErrorType.network
         else if isSessionMsg (lowerChars message) then ErrorType.session
         else if isSystemMsg (lowerChars message) then ErrorType.system
         else if isUserMsg (lowerChars message) then ErrorType.user
         else ErrorType.unknown) := by
  refine ⟨rfl, rfl, rfl, rfl, ?_⟩
  intro message
  unfold classifyError isNetworkMsg isSessionMsg isSystemMsg isUserMsg
  dsimp only
  repeat' split
  all_goals simp_all

/-- Model of `RecoveryStrategy` from src/unnamed/part_004. -/
inductive RecoveryStrategy : Type
  | retry
  | fallback
  | abort
  | defer
deriving DecidableEq

/-- Model of `RecoveryContext.operationType`. -/
inductive OperationType : Type
  | chat
  | load_conversation
  | create_session
deriving DecidableEq

/-- Model of `RecoveryContext` from src/unnamed/part_004. `originalError` is the
`Error` object whose `message` feeds `classifyError`; only the message
participates in any modelled computation. -/
structure RecoveryContext where
  sessionId : Option String
  operationType : OperationType
  errorMessage : List Char
  retryCount : Nat
  maxRetries : Nat
  workingDirectory : Option String
  userPrompt : Option String
deriving DecidableEq

/-- Model of `ErrorRecoverySystem.determineRecoveryStrategy`. The session branch's
`context.retryCount === 0 && context.sessionId` uses JS truthiness on the
session id. -/
def determineRecoveryStrategy (c : ErrorClassification) (ctx : RecoveryContext) :
    RecoveryStrategy :=
  if c.type = .user then .abort
  else if c.type = .system ∧ c.severity = .critical then .defer
  else if c.type = .session then
    if ctx.retryCount = 0 ∧ jsTruthyStr ctx.sessionId then .retry else .fallback
  else if c.type = .network then
    if ctx.retryCount < ctx.maxRetries then .retry else .abort
  else if c.type = .system then
    if ctx.retryCount < min 2 ctx.maxRetries then .retry else .defer
  else if ctx.retryCount < ctx.maxRetries then .retry
  else .fallback

/-- C4: once `retryCount ≥ maxRetries ≥ 1`, no classification yields
`retry`; a `network` classification yields `abort` and a `session`
classification yields `fallback` (in particular at
`retryCount = maxRetries = 3`). -/
theorem c4_no_retry_at_max (c : ErrorClassification) (ctx : RecoveryContext)
    (h1 : 1 ≤ ctx.maxRetries) (h2 : ctx.maxRetries ≤ ctx.retryCount) :
    determineRecoveryStrategy c ctx ≠ RecoveryStrategy.retry ∧
      (c.type = ErrorType.network →
        determineRecoveryStrategy c ctx = RecoveryStrategy.abort) ∧
      (c.type = ErrorType.session →
        determineRecoveryStrategy c ctx = RecoveryStrategy.fallback) := by
  have hnotlt : ¬ ctx.retryCount < ctx.maxRetries := Nat.not_lt.mpr h2
  have hne0 : ¬ ctx.retryCount = 0 := by omega
  have hnotlt2 : ¬ ctx.retryCount < min 2 ctx.maxRetries := by
    have := Nat.min_le_right 2 ctx.maxRetries
    omega
  obtain ⟨ct, cs, cr, cb, cp⟩ := c
  cases ct <;> cases cs <;>
    simp_all [determineRecoveryStrategy]

/-- Witness for C4 at `retryCount = maxRetries = 3` with the classification
records `classifyError` produces for network and session errors. -/
theorem c4_no_retry_at_max_witness :
    determineRecoveryStrategy
        { type := ErrorType.network, severity := ErrorSeverity.medium,
          recoverable := true, retryable := true, permanent := false }
        { sessionId := some "s", operationType := OperationType.chat,
          errorMessage := [], retryCount := 3, maxRetries := 3,
          workingDirectory := none, userPrompt := none } = RecoveryStrategy.abort ∧
      determineRecoveryStrategy
        { type := ErrorType.session, severity := ErrorSeverity.medium,
          recoverable := true, retryable := false, permanent := false }
        { sessionId := some "s", operationType := OperationType.chat,
          errorMessage := [], retryCount := 3, maxRetries := 3,
          workingDirectory := none, userPrompt := none } = RecoveryStrategy.fallback :=
  ⟨(c4_no_retry_at_max _ _ (by decide) (by decide)).2.1 rfl,
   (c4_no_retry_at_max _ _ (by decide) (by decide)).2.2 rfl⟩

/-- Model of `RecoveryResult` from src/unnamed/part_004. -/
structure RecoveryResult where
  success : Bool
  strategy : RecoveryStrategy
  newSessionId : Option String
  error : Option String
  retryAfter : Option Nat
deriving DecidableEq

/-- Model of `ErrorRecoverySystem.retryDelay` (base delay, ms). -/
def retryDelayBase : Nat := 1000

/-- Model of `ErrorRecoverySystem.backoffMultiplier`. -/
def backoffMultiplier : Nat := 2

/-- Model of `ErrorRecoverySystem.calculateRetryDelay`:
`Math.min(retryDelay * Math.pow(backoffMultiplier, retryCount), 30000)`.
`Math.pow` is exact on these integers whenever the product is below the cap,
and any overflow or `Infinity` still yields 30000 through `Math.min`, so the
`Nat` translation agrees with the JS double for every `retryCount`. -/
def calculateRetryDelay (retryCount : Nat) : Nat :=
  min (retryDelayBase * backoffMultiplier ^ retryCount) 30000

/-- The result shape of `validateSessionForContinuation`, used by
`executeRetry`; the oracle returns `Except.error` when validation throws. -/
structure ValidationOutcome where
  isValid : Bool
  canContinue : Bool
  shouldRetry : Bool
  shouldCreateNew : Bool
  error : Option String
deriving DecidableEq

/-- Model of `executeFallback`'s returned result (it also marks the session error in
the manager and the store; those state effects are `markSessionError`). -/
def fallbackResult : RecoveryResult :=
  { success := true, strategy := .fallback, newSessionId := none, error := none,
    retryAfter := none }

/-- Model of `executeAbort`'s returned result. -/
def abortResult : RecoveryResult :=
  { success := false, strategy := .abort, newSessionId := none,
    error := some "Operation aborted due to unrecoverable error",
    retryAfter := none }

/-- Model of `executeDefer`'s returned result. -/
def deferResult : RecoveryResult :=
  { success := false, strategy := .defer, newSessionId := none,
    error := some "Manual intervention required - please check system status",
    retryAfter := none }

/-- Model of `ErrorRecoverySystem.executeRetry`. The sleep is not modelled; the
validation call (which can fail or throw) is the `validate` oracle. For a
chat operation on a truthy session id, a failed or thrown validation falls
back; otherwise the retry result carries `retryAfter = delay`. -/
def executeRetry (ctx : RecoveryContext)
    (validate : String → Except Unit ValidationOutcome) : RecoveryResult :=
  let delay := calculateRetryDelay ctx.retryCount
  match ctx.sessionId with
  | some sid =>
    if sid ≠ "" ∧ ctx.operationType = .chat then
      match validate sid with
      | .ok v =>
        if v.canContinue then
          { success := true, strategy := .retry, newSessionId := none,
            error := none, retryAfter := some delay }
        else fallbackResult
      | .error _ => fallbackResult
    else
      { success := true, strategy := .retry, newSessionId := none,
        error := none, retryAfter := some delay }
  | none =>
    { success := true, strategy := .retry, newSessionId := none,
      error := none, retryAfter := some delay }

/-- Model of `ErrorRecoverySystem.executeRecovery`: dispatch on the strategy. -/
def executeRecovery (strategy : RecoveryStrategy) (ctx : RecoveryContext)
    (validate : String → Except Unit ValidationOutcome) : RecoveryResult :=
  match strategy with
  | .retry => executeRetry ctx validate
  | .fallback => fallbackResult
  | .abort => abortResult
  | .defer => deferResult

/-- C5: the backoff delay is `min(1000 · 2^retryCount, 30000)` ms, and any
recovery result whose strategy is `retry` carries `retryAfter` equal to that
delay for the context's `retryCount`. -/
theorem c5_retry_backoff :
    (∀ r : Nat, calculateRetryDelay r = min (1000 * 2 ^ r) 30000) ∧
    (∀ (strategy : RecoveryStrategy) (ctx : RecoveryContext)
        (validate : String → Except Unit ValidationOutcome),
      (executeRecovery strategy ctx validate).strategy = RecoveryStrategy.retry →
      (executeRecovery strategy ctx validate).retryAfter =
        some (min (1000 * 2 ^ ctx.retryCount) 30000)) := by
  constructor
  · intro r
    rfl
  · intro strategy ctx validate h
    cases strategy with
    | retry =>
      unfold executeRecovery executeRetry at h ⊢
      dsimp only at h ⊢
      cases hs : ctx.sessionId with
      | none => rfl
      | some sid =>
        rw [hs] at h
        dsimp only at h ⊢
        by_cases hc : sid ≠ "" ∧ ctx.operationType = OperationType.chat
        · rw [if_pos hc] at h ⊢
          cases hv : validate sid with
          | ok v =>
            rw [hv] at h
            dsimp only at h ⊢
            by_cases hcc : v.canContinue = true
            · rw [if_pos hcc]
              rfl
            · rw [if_neg hcc] at h
              exact absurd h (by simp [fallbackResult])
          | error e =>
            rw [hv] at h
            exact absurd h (by simp [fallbackResult])
        · rw [if_neg hc]
          rfl
    | fallback => exact absurd h (by simp [executeRecovery, fallbackResult])
    | abort => exact absurd h (by simp [executeRecovery, abortResult])
    | defer => exact absurd h (by simp [executeRecovery, deferResult])

/-- Witness for C5: a retry with `retryCount = 2` carries
`retryAfter = 4000`; the delay formula evaluates as claimed at 2. -/
theorem c5_retry_backoff_witness :
    calculateRetryDelay 2 = min (1000 * 2 ^ 2) 30000 ∧
      (executeRecovery RecoveryStrategy.retry
          { sessionId := none, operationType := OperationType.chat,
            errorMessage := [], retryCount := 2, maxRetries := 3,
            workingDirectory := none, userPrompt := none }
          (fun _ => Except.error ())).retryAfter =
        some (min (1000 * 2 ^ 2) 30000) :=
  ⟨c5_retry_backoff.1 2,
   c5_retry_backoff.2 RecoveryStrategy.retry
     { sessionId := none, operationType := OperationType.chat,
       errorMessage := [], retryCount := 2, maxRetries := 3,
       workingDirectory := none, userPrompt := none }
     (fun _ => Except.error ()) rfl⟩

end CCUI
